import Mathlib

/-!
Verification development for the k6 websocket load-test script
`src/testcase.js`.  The script's logic core is embedded shallowly:

* `LogTime` — the latency-recorder class (lines 11-32), with JavaScript
  `undefined` timestamps rendered as `Option Int` and arithmetic on
  `undefined` rendered as the `JsNum.nan` result;
* the `Performant.onConnect` session handlers (lines 58-96), with every
  metric emission (`trend.add`, `gauge.add`, `counter.add`) tagged by the
  metric name it goes to, so theorems can count and inspect the samples
  handed to the external sink;
* the scenario option tables and the `initialize` dispatch
  (lines 100-207), embedded as `initScene`;
* the start-delay computation of `main` (lines 220-231), embedded as
  `computeDelay`.
-/

/-- Result of a JavaScript numeric computation as it occurs in `LogTime`:
an integer value, or NaN (the result of subtracting `undefined`). -/
inductive JsNum where
  | num (v : Int)
  | nan
deriving DecidableEq, BEq, Repr

/-- JavaScript subtraction of two possibly-`undefined` numbers
(`undefined` on either side yields NaN). -/
def jsSub : Option Int → Option Int → JsNum
  | some a, some b => JsNum.num (a - b)
  | _, _ => JsNum.nan

/-- State of one `LogTime` recorder (src/testcase.js lines 11-32): the
trend's metric name and the two timestamp fields, `none` while still
`undefined` in the JavaScript object. -/
structure LogTime where
  name : String
  startTime : Option Int
  endedTime : Option Int
deriving DecidableEq, Repr

/-- Constructor `new LogTime(name)` (lines 16-19): stores the name
(`name || ''` is the identity on every non-empty string and maps the empty
string to itself) and creates the `Trend` under that name.  It does not
read the clock: `startTime` is left `undefined`. -/
def LogTime.make (name : String) : LogTime :=
  { name := name, startTime := none, endedTime := none }

/-- Getter `duration` (lines 20-23): `-1` while `endedTime` is falsy
(`undefined`, or the number 0), otherwise `endedTime - startTime` — which
is NaN when `startTime` is still `undefined`. -/
def LogTime.duration (t : LogTime) : JsNum :=
  if t.endedTime = none ∨ t.endedTime = some 0 then JsNum.num (-1)
  else jsSub t.endedTime t.startTime

/-- Method `start()` (lines 24-26): `startTime = Date.now()`. -/
def LogTime.start (t : LogTime) (now : Int) : LogTime :=
  { t with startTime := some now }

/-- Method `end()` (lines 27-31): sets `endedTime = Date.now()`, calls
`trend.add(this.duration)` and returns `this.duration`.  The result is the
updated recorder, the sample `(trend name, value)` handed to the metrics
sink by `trend.add`, and the value returned to the caller. -/
def LogTime.end' (t : LogTime) (now : Int) : LogTime × (String × JsNum) × JsNum :=
  let t2 : LogTime := { t with endedTime := some now }
  (t2, (t2.name, t2.duration), t2.duration)

/-- Metric name of the `Trend` inside `new LogTime('api_name')`
(src/testcase.js line 64). -/
def trendMetricName : String := "api_name"

/-- Metric name of `new Counter('api_name')` (line 66). -/
def counterMetricName : String := "api_name"

/-- Metric name of `new Gauge('gaugeRtt')` (line 62). -/
def gaugeMetricName : String := "gaugeRtt"

/-- The probe payload sent on `open` and matched on `message`
(lines 71 and 84): the string `onTestcase1`. -/
def probeMessage : String := "onTestcase1"

/-- The benign error cause suppressed by the `error` handler (line 92). -/
def close_sent_error : String := "websocket: close sent"

/-- Observable state of one `Performant.onConnect` session: the recorder,
the payloads sent over the socket, the samples handed to the sink for each
of the three metric objects, and the console log lines. -/
structure SessionState where
  recorder : LogTime
  sent : List String
  trendSamples : List (String × JsNum)
  gaugeSamples : List (String × JsNum)
  counterAdds : List (String × Int)
  logs : List String
deriving DecidableEq, Repr

/-- State set up at the top of `Performant.onConnect` (lines 58-66):
the gauge, the `LogTime` recorder and the counter are constructed; no
handler has fired yet and no clock reading is taken. -/
def initSession : SessionState :=
  { recorder := LogTime.make trendMetricName
    sent := []
    trendSamples := []
    gaugeSamples := []
    counterAdds := []
    logs := [] }

/-- The `open` handler (lines 69-72): logs and sends the probe payload.
It does not touch the recorder. -/
def onOpen (st : SessionState) : SessionState :=
  { st with
      logs := st.logs ++ ["connected"]
      sent := st.sent ++ [probeMessage] }

/-- The `message` handler (lines 79-89): every message is logged; when the
payload equals the probe identifier, `trend.end()` runs (emitting one trend
sample and yielding `rtt`), then `gauge.add(rtt)` and `counter.add(1)`.
Any other payload leaves every metric untouched. -/
def onMessage (st : SessionState) (now : Int) (message : String) : SessionState :=
  let st1 : SessionState := { st with logs := st.logs ++ [message] }
  if message = probeMessage then
    let r := st1.recorder.end' now
    { st1 with
        recorder := r.1
        trendSamples := st1.trendSamples ++ [r.2.1]
        gaugeSamples := st1.gaugeSamples ++ [(gaugeMetricName, r.2.2)]
        counterAdds := st1.counterAdds ++ [(counterMetricName, 1)] }
  else st1

/-- Deliver a list of `(arrival instant, payload)` messages in order. -/
def runMessages (st : SessionState) : List (Int × String) → SessionState
  | [] => st
  | (t, m) :: rest => runMessages (onMessage st t m) rest

/-- How many messages of a sequence equal the probe identifier. -/
def matchCount (msgs : List (Int × String)) : Nat :=
  msgs.countP (fun p => p.2 == probeMessage)

/-- One line logged by the `error` handler: the worker id (`__VU`) and the
error cause. -/
structure ErrorLog where
  vu : Nat
  cause : String
deriving DecidableEq, Repr

/-- The `error` handler (lines 91-95): logs the worker id and the cause
unless the cause equals `websocket: close sent`.  The result is the list of
log lines produced by one invocation. -/
def onError (vu : Nat) (cause : String) : List ErrorLog :=
  if cause ≠ close_sent_error then [{ vu := vu, cause := cause }] else []

/-- One `(duration, target)` stage of a k6 ramping executor. -/
structure Stage where
  duration : String
  target : Nat
deriving DecidableEq, BEq, Repr

/-- One named scenario entry of a k6 options object; fields absent from a
given literal in the source are `none`. -/
structure ScenarioDef where
  executor : String
  vus : Option Nat := none
  iterations : Option Nat := none
  maxDuration : Option String := none
  preAllocatedVUs : Option Nat := none
  maxVUs : Option Nat := none
  startRate : Option Nat := none
  timeUnit : Option String := none
  rate : Option Nat := none
  duration : Option String := none
  exec : Option String := none
  stages : Option (List Stage) := none
  tags : Option (List (String × String)) := none
deriving DecidableEq, BEq, Repr

/-- A k6 options object as used in the source: an optional `thresholds`
table, a `scenarios` table, and (for `stress_testing_options`) top-level
`stages`. -/
structure TestOptions where
  thresholds : List (String × List String) := []
  scenarios : List (String × ScenarioDef) := []
  stages : Option (List Stage) := none
deriving DecidableEq, BEq, Repr

/-- `iterations_testing` (src/testcase.js lines 110-130). -/
def iterations_testing : TestOptions :=
  { scenarios :=
      [ ("iterations",
          { executor := "shared-iterations"
            vus := some 1
            iterations := some 1
            maxDuration := some "10m" })
      , ("monitor",
          { executor := "constant-arrival-rate"
            preAllocatedVUs := some 1
            timeUnit := some "1s"
            rate := some 1
            duration := some "1m10s"
            exec := some "monitor" }) ] }

/-- `ramping_arrival_rate_testing` (lines 134-155): one scenario keyed
`stress` with a bounded pool of 2 preallocated / 2 maximum workers and five
arrival-rate stages starting and ending at target 0. -/
def ramping_arrival_rate_testing : TestOptions :=
  { scenarios :=
      [ ("stress",
          { executor := "ramping-arrival-rate"
            preAllocatedVUs := some 2
            maxVUs := some 2
            startRate := some 1
            timeUnit := some "1s"
            stages := some
              [ { duration := "30s", target := 0 }
              , { duration := "5m", target := 10 }
              , { duration := "5m", target := 50 }
              , { duration := "10m", target := 100 }
              , { duration := "30s", target := 0 } ] }) ] }

/-- `stress_testing_options` (lines 157-164): top-level stages only. -/
def stress_testing_options : TestOptions :=
  { stages := some
      [ { duration := "10s", target := 10 }
      , { duration := "10s", target := 10 }
      , { duration := "10s", target := 50 }
      , { duration := "10s", target := 0 } ] }

/-- `constant_testing` (lines 166-181), parametrised by
`PerfEnvironment.duration` (the externally supplied run duration): a
threshold `value<100` on the gauge metric `gaugeRtt`, and one constant-vus
scenario with 2 workers. -/
def constant_testing (envDuration : String) : TestOptions :=
  { thresholds := [("gaugeRtt", ["value<100"])]
    scenarios :=
      [ ("constant",
          { executor := "constant-vus"
            vus := some 2
            duration := some envDuration
            tags := some [("type", "game")] }) ] }

/-- `breakpoint_testing` (lines 183-192). -/
def breakpoint_testing : TestOptions :=
  { scenarios :=
      [ ("breakpoint",
          { executor := "ramping-arrival-rate"
            stages := some [ { duration := "10m", target := 20000 } ] }) ] }

/-- The scenario-resolution function `initialize(scene)` of the source
(lines 195-207), with the run duration captured by `constant_testing`
threaded as an explicit first argument.  The string comparisons are the
exact literals of the source: note the second arm matches
`ramping_arrival_rate_testing`, and every unmatched identifier falls
through to `constant_testing`. -/
def initScene (envDuration : String) (scene : String) : TestOptions :=
  if scene = "iterations" then iterations_testing
  else if scene = "ramping_arrival_rate_testing" then ramping_arrival_rate_testing
  else if scene = "stress" then stress_testing_options
  else if scene = "breakpoint" then breakpoint_testing
  else constant_testing envDuration

/-- Milliseconds per stagger batch, `per_stage_duration` in `main`
(src/testcase.js line 223). -/
def per_stage_duration : Nat := 1000

/-- The start-delay computation of `main` (lines 220-231):
`per_stage_clients = iterationInScenario == 0 ? idInTest : iterationInScenario`
followed by `Math.floor(per_stage_clients) * per_stage_duration`
(`Math.floor` is the identity on these non-negative integer inputs). -/
def computeDelay (idInTest iterationInScenario : Nat) : Nat :=
  (if iterationInScenario = 0 then idInTest else iterationInScenario) * per_stage_duration

/-! ## Theorems -/

/-- Helper: delivering a message sequence appends one trend sample, one
gauge sample and one counter increment per message equal to the probe
identifier, and nothing for any other message. -/
theorem runMessages_metric_counts (msgs : List (Int × String)) : ∀ st : SessionState,
    (runMessages st msgs).counterAdds.length = st.counterAdds.length + matchCount msgs ∧
    (runMessages st msgs).gaugeSamples.length = st.gaugeSamples.length + matchCount msgs ∧
    (runMessages st msgs).trendSamples.length = st.trendSamples.length + matchCount msgs := by
  induction msgs with
  | nil => intro st; simp [runMessages, matchCount]
  | cons p rest ih =>
    intro st
    obtain ⟨t, m⟩ := p
    have h := ih (onMessage st t m)
    by_cases hm : m = probeMessage
    · subst hm
      simp [runMessages, matchCount, onMessage] at h ⊢
      omega
    · have hb : (m == probeMessage) = false := by simp [hm]
      simp [runMessages, matchCount, onMessage, hm, hb] at h ⊢
      omega

/-- C1: the claim says the latency timer starts at recorder construction in
`onConnect`.  In the code no call to `LogTime.start` exists at all: the
recorder's `startTime` is still `undefined` after construction and after the
`open` handler, so a matching echo (here at instant 25) makes `end()`
forward NaN to the trend and the gauge instead of the interval from
construction to echo arrival. -/
theorem c1_start_instant_never_captured :
    initSession.recorder.startTime = none ∧
    (onOpen initSession).recorder.startTime = none ∧
    (onMessage (onOpen initSession) 25 probeMessage).trendSamples
      = [(trendMetricName, JsNum.nan)] ∧
    (onMessage (onOpen initSession) 25 probeMessage).gaugeSamples
      = [(gaugeMetricName, JsNum.nan)] := by
  decide

/-- C2 counterexample: on a fresh recorder (no `start()`), `end()` at
instant 5 returns NaN — not the sentinel −1 — and does forward one (NaN)
sample to the sink. -/
theorem c2_counterexample :
    (LogTime.end' (LogTime.make "api_name") 5).2.2 = JsNum.nan ∧
    ((LogTime.end' (LogTime.make "api_name") 5).2.2 == JsNum.num (-1)) = false ∧
    (LogTime.end' (LogTime.make "api_name") 5).2.1 = ("api_name", JsNum.nan) := by
  decide

/-- C2 amended: calling `end()` on a recorder whose `start()` was never
called (at any nonzero clock instant) returns NaN and forwards that one NaN
sample to the sink under the recorder's name; the −1 sentinel is what the
`duration` getter yields only while `end()` has not yet been called. -/
theorem c2_end_without_start (name : String) (t : Int) (h : t ≠ 0) :
    LogTime.end' (LogTime.make name) t
      = ({ name := name, startTime := none, endedTime := some t },
          (name, JsNum.nan), JsNum.nan) ∧
    (LogTime.make name).duration = JsNum.num (-1) := by
  constructor
  · simp [LogTime.end', LogTime.make, LogTime.duration, jsSub, h]
  · simp [LogTime.make, LogTime.duration]

/-- C2 witness: the amended behavior at name `api_name`, instant 5. -/
theorem c2_end_without_start_witness :
    LogTime.end' (LogTime.make "api_name") 5
      = ({ name := "api_name", startTime := none, endedTime := some (5 : Int) },
          ("api_name", JsNum.nan), JsNum.nan) ∧
    (LogTime.make "api_name").duration = JsNum.num (-1) :=
  c2_end_without_start "api_name" 5 (by decide)

/-- C3 counterexample: after `start()` at 1 and `end()` at 3, the start
marker is still set (not cleared), and a second `end()` at 7 with no
intervening `start()` forwards a second sample (6 = 7 − 1) to the sink. -/
theorem c3_counterexample :
    (LogTime.end' (LogTime.start (LogTime.make "api_name") 1) 3).1.startTime = some 1 ∧
    (LogTime.end' (LogTime.end' (LogTime.start (LogTime.make "api_name") 1) 3).1 7).2.1
      = ("api_name", JsNum.num 6) := by
  decide

/-- C3 amended: `end()` leaves the internal start marker in place, and every
call of `end()` forwards a sample, so a second `end()` with no intervening
`start()` forwards a second sample, measured from the original start. -/
theorem c3_end_does_not_clear (name : String) (t0 t1 t2 : Int)
    (h1 : t1 ≠ 0) (h2 : t2 ≠ 0) :
    (LogTime.end' (LogTime.start (LogTime.make name) t0) t1).1.startTime = some t0 ∧
    (LogTime.end' (LogTime.start (LogTime.make name) t0) t1).2.1
      = (name, JsNum.num (t1 - t0)) ∧
    (LogTime.end' (LogTime.end' (LogTime.start (LogTime.make name) t0) t1).1 t2).2.1
      = (name, JsNum.num (t2 - t0)) := by
  refine ⟨rfl, ?_, ?_⟩ <;>
    simp [LogTime.end', LogTime.start, LogTime.make, LogTime.duration, jsSub, h1, h2]

/-- C3 witness: the amended behavior at name `api_name`, instants 1, 3, 7. -/
theorem c3_end_does_not_clear_witness :
    (LogTime.end' (LogTime.start (LogTime.make "api_name") 1) 3).1.startTime = some 1 ∧
    (LogTime.end' (LogTime.start (LogTime.make "api_name") 1) 3).2.1
      = ("api_name", JsNum.num (3 - 1)) ∧
    (LogTime.end' (LogTime.end' (LogTime.start (LogTime.make "api_name") 1) 3).1 7).2.1
      = ("api_name", JsNum.num (7 - 1)) :=
  c3_end_does_not_clear "api_name" 1 3 7 (by decide) (by decide)

/-- C9: after `start()` at instant `t0` and `end()` at a (nonzero) instant
`t1` with no other call in between, the sample forwarded to the sink and
the value returned both equal exactly `t1 - t0`. -/
theorem c9_single_cycle_accuracy (name : String) (t0 t1 : Int) (h : t1 ≠ 0) :
    (LogTime.end' (LogTime.start (LogTime.make name) t0) t1).2.1
      = (name, JsNum.num (t1 - t0)) ∧
    (LogTime.end' (LogTime.start (LogTime.make name) t0) t1).2.2
      = JsNum.num (t1 - t0) := by
  constructor <;>
    simp [LogTime.end', LogTime.start, LogTime.make, LogTime.duration, jsSub, h]

/-- C9 witness: `start()` at 100, `end()` at 250 forwards exactly 150. -/
theorem c9_single_cycle_accuracy_witness :
    (LogTime.end' (LogTime.start (LogTime.make "api_name") 100) 250).2.1
      = ("api_name", JsNum.num (250 - 100)) ∧
    (LogTime.end' (LogTime.start (LogTime.make "api_name") 100) 250).2.2
      = JsNum.num (250 - 100) :=
  c9_single_cycle_accuracy "api_name" 100 250 (by decide)

/-- C4 counterexample: at worker ordinal 2, iteration index 1, the code
computes `1 * 1000 = 1000`, not `max 2 1 * 1000 = 2000` as the claim's
`max` formula states. -/
theorem c4_counterexample :
    computeDelay 2 1 = 1000 ∧
    (computeDelay 2 1 == Nat.max 2 1 * per_stage_duration) = false := by
  decide

/-- C4 amended: the start delay is deterministic and equals
`(iterationIndex if iterationIndex ≠ 0, else workerOrdinal) * 1000` — a
selection, not a maximum — and is always ≥ 0. -/
theorem c4_delay_formula (workerOrdinal iterationIndex : Nat) :
    (iterationIndex = 0 →
      computeDelay workerOrdinal iterationIndex = workerOrdinal * per_stage_duration) ∧
    (iterationIndex ≠ 0 →
      computeDelay workerOrdinal iterationIndex = iterationIndex * per_stage_duration) ∧
    0 ≤ computeDelay workerOrdinal iterationIndex := by
  refine ⟨fun h => ?_, fun h => ?_, Nat.zero_le _⟩ <;> simp [computeDelay, h]

/-- C4 witness: the amended formula at ordinal 3 with iteration 0 and with
iteration 2. -/
theorem c4_delay_formula_witness :
    computeDelay 3 0 = 3 * per_stage_duration ∧
    computeDelay 3 2 = 2 * per_stage_duration :=
  ⟨(c4_delay_formula 3 0).1 rfl, (c4_delay_formula 3 2).2.1 (by decide)⟩

/-- C5 counterexample: the identifier `ramping_arrival_rate` is not matched
by the dispatch (whose arm compares against `ramping_arrival_rate_testing`),
so it resolves to the constant fallback descriptor, not the
ramping-arrival-rate descriptor. -/
theorem c5_counterexample :
    initScene "1m" "ramping_arrival_rate" = constant_testing "1m" ∧
    (initScene "1m" "ramping_arrival_rate" == ramping_arrival_rate_testing) = false := by
  decide

/-- C5 amended: the identifier that selects the ramping-arrival-rate
descriptor by exact case-sensitive match is `ramping_arrival_rate_testing`;
that descriptor has a bounded pool of 2 preallocated / 2 maximum workers
and an arrival-rate ramp whose stages start and end at target 0, and it is
distinct from the constant fallback (its sole scenario is keyed `stress`,
the fallback's is keyed `constant`). -/
theorem c5_ramping_resolution (envDuration : String) :
    initScene envDuration "ramping_arrival_rate_testing" = ramping_arrival_rate_testing ∧
    ramping_arrival_rate_testing.scenarios.map Prod.fst = ["stress"] ∧
    ramping_arrival_rate_testing.scenarios.map (fun p => p.2.preAllocatedVUs) = [some 2] ∧
    ramping_arrival_rate_testing.scenarios.map (fun p => p.2.maxVUs) = [some 2] ∧
    ramping_arrival_rate_testing.scenarios.map
        (fun p => p.2.stages.map (fun ss => ss.map Stage.target))
      = [some [0, 10, 50, 100, 0]] ∧
    (constant_testing envDuration).scenarios.map Prod.fst = ["constant"] := by
  refine ⟨rfl, by decide, by decide, by decide, by decide, rfl⟩

/-- C6: every scene identifier other than the four matched literals —
including the empty string, unrecognized names, and `constant` itself —
resolves to the constant descriptor, so resolution is total and every
unrecognized identifier yields the same descriptor as `constant`. -/
theorem c6_fallback_to_constant (envDuration scene : String)
    (h1 : scene ≠ "iterations") (h2 : scene ≠ "ramping_arrival_rate_testing")
    (h3 : scene ≠ "stress") (h4 : scene ≠ "breakpoint") :
    initScene envDuration scene = constant_testing envDuration ∧
    initScene envDuration "constant" = constant_testing envDuration := by
  constructor
  · simp [initScene, h1, h2, h3, h4]
  · rfl

/-- C6 witness: the empty identifier resolves to the constant descriptor,
the same one `constant` resolves to. -/
theorem c6_fallback_to_constant_witness :
    initScene "1m" "" = constant_testing "1m" ∧
    initScene "1m" "constant" = constant_testing "1m" :=
  c6_fallback_to_constant "1m" "" (by decide) (by decide) (by decide) (by decide)

/-- C7: the error handler emits nothing when the cause equals
`websocket: close sent`, and exactly one log line — carrying the worker
identity and the cause — for any other cause string. -/
theorem c7_error_suppression (vu : Nat) (cause : String) :
    (cause = close_sent_error → onError vu cause = []) ∧
    (cause ≠ close_sent_error → onError vu cause = [{ vu := vu, cause := cause }]) := by
  constructor
  · intro h; simp [onError, h]
  · intro h; simp [onError, h]

/-- C7 witness: worker 7 with the benign cause logs nothing; worker 7 with
cause `boom` logs exactly one line naming worker 7. -/
theorem c7_error_suppression_witness :
    onError 7 close_sent_error = [] ∧
    onError 7 "boom" = [{ vu := 7, cause := "boom" }] :=
  ⟨(c7_error_suppression 7 close_sent_error).1 rfl,
   (c7_error_suppression 7 "boom").2 (by decide)⟩

/-- C8: over any message sequence in which exactly one payload equals the
probe identifier, the session performs exactly one counter increment and
exactly one gauge update (non-matching messages contribute no metric
effect wherever they occur). -/
theorem c8_single_match_single_metrics (msgs : List (Int × String))
    (h : matchCount msgs = 1) :
    (runMessages initSession msgs).counterAdds.length = 1 ∧
    (runMessages initSession msgs).gaugeSamples.length = 1 := by
  have hc := runMessages_metric_counts msgs initSession
  rw [h] at hc
  simpa [initSession] using ⟨hc.1, hc.2.1⟩

/-- C8 witness: a three-message sequence whose middle payload alone matches
the probe identifier yields exactly one counter increment and one gauge
update. -/
theorem c8_single_match_single_metrics_witness :
    (runMessages initSession
        [((1 : Int), "hello"), ((2 : Int), "onTestcase1"), ((3 : Int), "zzz")]).counterAdds.length = 1 ∧
    (runMessages initSession
        [((1 : Int), "hello"), ((2 : Int), "onTestcase1"), ((3 : Int), "zzz")]).gaugeSamples.length = 1 :=
  c8_single_match_single_metrics
    [((1 : Int), "hello"), ((2 : Int), "onTestcase1"), ((3 : Int), "zzz")] (by decide)

/-- C10: the duration trend and the round-trip counter share the single
metric name `api_name` (the recorder is constructed under it), the gauge is
the distinct name `gaugeRtt` — exactly the name the constant scenario's
threshold references — and on a matching echo the session emits one trend
sample and one counter increment under `api_name` and one gauge sample
under `gaugeRtt`. -/
theorem c10_metric_names (envDuration : String) (t : Int) :
    trendMetricName = counterMetricName ∧
    trendMetricName = "api_name" ∧
    gaugeMetricName = "gaugeRtt" ∧
    initSession.recorder.name = trendMetricName ∧
    (constant_testing envDuration).thresholds = [("gaugeRtt", ["value<100"])] ∧
    (onMessage initSession t probeMessage).trendSamples.map Prod.fst = [trendMetricName] ∧
    (onMessage initSession t probeMessage).gaugeSamples.map Prod.fst = [gaugeMetricName] ∧
    (onMessage initSession t probeMessage).counterAdds.map Prod.fst = [counterMetricName] := by
  refine ⟨rfl, rfl, rfl, rfl, rfl, ?_, ?_, ?_⟩ <;>
    simp [onMessage, initSession, LogTime.end', LogTime.make]
